import Mathlib

/-!
Verification of the gfs-wind-interpolator pipeline: a shallow embedding of
the forecast-availability resolver, the forecast-hour legality tables, the
grid locator, the terrain tile lookup, the ISA pressure-to-altitude
conversion, and the vertical profile builder, together with theorems about
the properties claimed of them.
-/

/-- The three supported forecast models of `wind_profiler.py`. -/
inductive Model where
  | hrrr
  | rap
  | gfs
deriving DecidableEq

/-- Embedding of `wind_profiler.get_available_forecast_hours` (lines 224-241):
HRRR gives `range(0, 19)`, RAP gives `range(0, 22)`, GFS gives
`range(0, 121, 3) + range(126, 385, 6)`. -/
def get_available_forecast_hours : Model → List Nat
  | Model.hrrr => List.range 19
  | Model.rap => List.range 22
  | Model.gfs => (List.range 41).map (· * 3) ++ (List.range 44).map (fun k => 126 + 6 * k)

/-- Embedding of `raw_data_viewer.get_available_forecast_hours` (lines 21-26):
GFS gives `range(0, 385, 6)`; every other model gives `range(0, 19)`. -/
def get_available_forecast_hours_rdv : Model → List Nat
  | Model.gfs => (List.range 65).map (· * 6)
  | _ => List.range 19

/-- Modelled from the spec: the GFS forecast-hour legality rule stated by the
spec, namely 3-hour steps to hour 120 and then 6-hour steps to hour 384. -/
def legalGfsHour (h : Nat) : Bool :=
  (h ≤ 120 && h % 3 == 0) || (120 < h && h ≤ 384 && h % 6 == 0)

/-- Embedding of `wind_profiler.get_immediately_available_hours`
(lines 317-333): probe every legal hour, keep those whose probe succeeds,
then insert hour 0 at the front when absent.  The network probe
`check_forecast_availability` is abstracted as a boolean function of the
forecast hour. -/
def get_immediately_available_hours (probe : Nat → Bool) (m : Model) : List Nat :=
  let available := (get_available_forecast_hours m).filter probe
  if 0 ∈ available then available else 0 :: available

/-- Embedding of the HRRR branch of `wind_profiler.find_available_run_hour`
(lines 348-366): scan `hours_back` in `range(6)`; the first candidate whose
existence probe succeeds yields `(check_time.hour, check_time date)`;
when every probe fails, fall back to `(now.hour, now date)`.  Time is
modelled as a total hour count `nowH` since the epoch, so the wall-clock
hour is `nowH % 24` and the date is the day number `nowH / 24`. -/
def find_available_run_hour_hrrr (probe : Nat → Bool) (nowH : Nat) : Nat × Nat :=
  match (List.range 6).find? probe with
  | some hb => ((nowH - hb) % 24, (nowH - hb) / 24)
  | none => (nowH % 24, nowH / 24)

/-- Embedding of the GFS branch of `wind_profiler.find_available_run_hour`
(lines 383-402): scan `hours_back` in `range(0, 48, 6)`; a successful probe
yields the candidate run hour rounded down to the 6-hour cycle; when every
probe fails, fall back to the current hour rounded down to the 6-hour
cycle, with the current date. -/
def find_available_run_hour_gfs (probe : Nat → Bool) (nowH : Nat) : Nat × Nat :=
  match ((List.range 8).map (· * 6)).find? probe with
  | some hb =>
      let h := (nowH - hb) % 24
      (h - h % 6, (nowH - hb) / 24)
  | none => (nowH % 24 - nowH % 24 % 6, nowH / 24)

/-- C9: for every probe outcome and every model,
`get_immediately_available_hours` returns a list containing forecast hour 0;
moreover when no probe confirmed hour 0 the result is exactly hour 0
consed onto the confirmed hours, so hour 0 is offered even when every
probe fails. -/
theorem hour_zero_always_offered (probe : Nat → Bool) (m : Model) :
    0 ∈ get_immediately_available_hours probe m ∧
    (0 ∉ (get_available_forecast_hours m).filter probe →
      get_immediately_available_hours probe m =
        0 :: (get_available_forecast_hours m).filter probe) := by
  by_cases h0 : 0 ∈ (get_available_forecast_hours m).filter probe
  · refine ⟨?_, fun hc => absurd h0 hc⟩
    simp [get_immediately_available_hours, h0]
  · constructor
    · simp [get_immediately_available_hours, h0]
    · intro _
      simp [get_immediately_available_hours, h0]

/-- C9 witness: with a probe that always fails, HRRR still gets hour 0
offered, as the singleton list `[0]`. -/
theorem hour_zero_always_offered_witness :
    0 ∈ get_immediately_available_hours (fun _ => false) Model.hrrr ∧
    get_immediately_available_hours (fun _ => false) Model.hrrr =
      0 :: (get_available_forecast_hours Model.hrrr).filter (fun _ => false) :=
  ⟨(hour_zero_always_offered (fun _ => false) Model.hrrr).1,
   (hour_zero_always_offered (fun _ => false) Model.hrrr).2 (by decide)⟩

/-- C1 counterexample: with an existence probe that fails for every
candidate run cycle, `find_available_run_hour` still returns a concrete,
unconfirmed run identifier — the current hour fallback — for both the
hourly and the 6-hourly model, instead of returning no run. -/
theorem resolver_fallback_counterexample :
    find_available_run_hour_hrrr (fun _ => false) 100 = (4, 4) ∧
    find_available_run_hour_gfs (fun _ => false) 100 = (0, 4) := by
  decide

/-- C1 amended: whenever the existence probe fails for every candidate run
cycle in the bounded backward scan, the resolver does not fail; it falls
back to the identifier of the most recent run cycle (the current hour for
HRRR, the current hour rounded down to the 6-hour cycle for GFS) without
having confirmed its existence. -/
theorem resolver_falls_back_when_probes_fail (probe : Nat → Bool) (nowH : Nat)
    (hfail : ∀ hb, probe hb = false) :
    find_available_run_hour_hrrr probe nowH = (nowH % 24, nowH / 24) ∧
    find_available_run_hour_gfs probe nowH =
      (nowH % 24 - nowH % 24 % 6, nowH / 24) := by
  have h6 : (List.range 6).find? probe = none := by
    rw [List.find?_eq_none]
    intro x _
    simp [hfail x]
  have h48 : ((List.range 8).map (· * 6)).find? probe = none := by
    rw [List.find?_eq_none]
    intro x _
    simp [hfail x]
  constructor
  · unfold find_available_run_hour_hrrr
    rw [h6]
  · unfold find_available_run_hour_gfs
    rw [h48]

/-- C1 amended witness: the all-failing probe at total hour 100 satisfies the
hypothesis and produces the fallback run identifiers. -/
theorem resolver_falls_back_witness :
    (∀ hb, (fun _ : Nat => false) hb = false) ∧
    (find_available_run_hour_hrrr (fun _ => false) 100 = (100 % 24, 100 / 24) ∧
     find_available_run_hour_gfs (fun _ => false) 100 =
       (100 % 24 - 100 % 24 % 6, 100 / 24)) :=
  ⟨fun _ => rfl,
   resolver_falls_back_when_probes_fail (fun _ => false) 100 (fun _ => rfl)⟩

/-- C5 counterexample: forecast hour 3 is legal under the claimed GFS rule
(3-hour steps up to hour 120), and `wind_profiler` lists it, but
`raw_data_viewer.get_available_forecast_hours` omits it: its GFS table is
6-hourly throughout. -/
theorem gfs_hours_counterexample :
    legalGfsHour 3 = true ∧
    3 ∈ get_available_forecast_hours Model.gfs ∧
    3 ∉ get_available_forecast_hours_rdv Model.gfs := by
  decide

/-- C5 amended: `wind_profiler` legal forecast hours are exactly the claimed
rule — dense hourly hours 0..18 for HRRR, 0..21 for RAP, and for GFS exactly
the hours satisfying the 3-hourly-to-120 then 6-hourly-to-384 rule — while
`raw_data_viewer` uses a coarser GFS table of every 6th hour 0..384, a
strict subset of the wind_profiler GFS hours. -/
theorem forecast_hour_tables :
    get_available_forecast_hours Model.hrrr = List.range 19 ∧
    get_available_forecast_hours Model.rap = List.range 22 ∧
    get_available_forecast_hours Model.gfs = (List.range 385).filter legalGfsHour ∧
    get_available_forecast_hours_rdv Model.gfs =
      (List.range 385).filter (fun h => h % 6 == 0) ∧
    (∀ h ∈ get_available_forecast_hours_rdv Model.gfs,
      h ∈ get_available_forecast_hours Model.gfs) := by
  refine ⟨rfl, rfl, by decide, by decide, by decide⟩

/-- Embedding of the output altitude axis `np.arange(0, max_elevation_ft +
1000, 1000)` built in `wind_profiler.main` (lines 899-909) and in
`winds_from_grib2.py` Step 6 (line 188): the multiples of 1000 that are
strictly below `max_elevation_ft + 1000`. -/
def interp_alt (maxElevationFt : Nat) : List Nat :=
  (List.range ((maxElevationFt + 1999) / 1000)).map (· * 1000)

/-- Per-level wind data at the resolved grid cell, as consumed by Step 6 of
the pipeline: level altitudes in feet together with the per-level wind
speed and direction arrays. -/
structure LevelData where
  alt : List ℚ
  spd : List ℚ
  dir : List ℚ

/-- Linear interpolation through two points, as used by
`scipy.interpolate.interp1d` on one segment. -/
def lerp (p q : ℚ × ℚ) (x : ℚ) : ℚ :=
  p.2 + (x - p.1) * (q.2 - p.2) / (q.1 - p.1)

/-- Embedding of `interp1d(xs, ys, bounds_error=False,
fill_value="extrapolate")` applied at a point, for break points listed in
ascending order: inside the range the enclosing segment is used, and
queries outside the range extrapolate linearly from the two nearest
boundary points. -/
def interpPts : List (ℚ × ℚ) → ℚ → ℚ
  | [], _ => 0
  | [p], _ => p.2
  | [p, q], x => lerp p q x
  | p :: q :: r :: rest, x =>
      if x ≤ q.1 then lerp p q x else interpPts (q :: r :: rest) x

/-- The interpolant `speed_i` of `wind_profiler.main` line 914, sampled at
one altitude. -/
def speed_i (d : LevelData) (x : ℚ) : ℚ := interpPts (d.alt.zip d.spd) x

/-- The interpolant `dir_i` of `wind_profiler.main` line 915, sampled at one
altitude. -/
def dir_i (d : LevelData) (x : ℚ) : ℚ := interpPts (d.alt.zip d.dir) x

/-- Embedding of the MSL branch of `wind_profiler.main` (lines 918-921 and
929-935): rows (altitude, speed, direction) with the interpolants sampled
directly on the output altitude axis. -/
def profileMSL (d : LevelData) (maxElevationFt : Nat) : List (ℚ × ℚ × ℚ) :=
  (interp_alt maxElevationFt).map (fun a => ((a : ℚ), speed_i d (a : ℚ), dir_i d (a : ℚ)))

/-- Embedding of the AGL branch of `wind_profiler.main` (lines 922-935):
each AGL step is shifted by the ground elevation to an MSL height,
`msl_altitudes = interp_alt + ground_elevation_ft`; the interpolants are
sampled there, and the row keeps its AGL label. -/
def profileAGL (d : LevelData) (maxElevationFt : Nat) (g : ℚ) : List (ℚ × ℚ × ℚ) :=
  (interp_alt maxElevationFt).map
    (fun a => ((a : ℚ), speed_i d ((a : ℚ) + g), dir_i d ((a : ℚ) + g)))

/-- Modelled from the spec: the MSL profile sampled at an arbitrary list of
altitudes, the notion the AGL/MSL equivalence claim compares against. -/
def sampleMSL (d : LevelData) (xs : List ℚ) : List (ℚ × ℚ × ℚ) :=
  xs.map (fun x => (x, speed_i d x, dir_i d x))

/-- C2 counterexample: for requested ceiling 1500 (legal, since 1000 ≤ 1500
≤ 50000) the output altitude axis is [0, 1000, 2000]: it does not end at
the ceiling, and its last altitude 2000 exceeds the ceiling. -/
theorem altitude_axis_counterexample :
    interp_alt 1500 = [0, 1000, 2000] ∧
    2000 ∈ interp_alt 1500 ∧ ¬ (2000 : Nat) ≤ 1500 := by
  decide

/-- C2 amended: when the requested ceiling C is a multiple of 1000 with
1000 ≤ C, the output altitude axis is exactly 0, 1000, ..., C: it is the
map of (· * 1000) over 0..C/1000, strictly increasing, starting at 0,
containing C, and with no altitude exceeding C.  For a ceiling that is not
a multiple of 1000 the axis instead ends at the next multiple of 1000
above C, as the counterexample shows. -/
theorem altitude_axis_exact (c : Nat) (h1 : 1000 ≤ c) (h2 : c % 1000 = 0) :
    interp_alt c = (List.range (c / 1000 + 1)).map (· * 1000) ∧
    (interp_alt c).Pairwise (· < ·) ∧
    (interp_alt c).head? = some 0 ∧
    c ∈ interp_alt c ∧
    ∀ x ∈ interp_alt c, x ≤ c := by
  have hcount : (c + 1999) / 1000 = c / 1000 + 1 := by omega
  have heq : interp_alt c = (List.range (c / 1000 + 1)).map (· * 1000) := by
    unfold interp_alt
    rw [hcount]
  refine ⟨heq, ?_, ?_, ?_, ?_⟩
  · rw [heq]
    exact (List.pairwise_lt_range _).map _ (fun hab => by omega)
  · rw [heq]
    rw [List.head?_map, List.head?_range]
    simp
  · rw [heq, List.mem_map]
    exact ⟨c / 1000, by simp, by omega⟩
  · rw [heq]
    intro x hx
    rw [List.mem_map] at hx
    obtain ⟨k, hk, hkx⟩ := hx
    rw [List.mem_range] at hk
    omega

/-- C2 amended witness: at ceiling 3000 the axis is exactly
[0, 1000, 2000, 3000] with all the stated properties. -/
theorem altitude_axis_exact_witness :
    1000 ≤ 3000 ∧ 3000 % 1000 = 0 ∧
    (interp_alt 3000 = (List.range (3000 / 1000 + 1)).map (· * 1000) ∧
     (interp_alt 3000).Pairwise (· < ·) ∧
     (interp_alt 3000).head? = some 0 ∧
     3000 ∈ interp_alt 3000 ∧
     ∀ x ∈ interp_alt 3000, x ≤ 3000) :=
  ⟨by decide, by decide, altitude_axis_exact 3000 (by decide) (by decide)⟩

/-- C3: for every per-level dataset, ceiling and ground elevation g, the
AGL-mode profile with every altitude label shifted by +g equals the MSL
interpolants sampled at those shifted altitudes; the MSL-mode profile is
itself that sampling on the unshifted axis.  So the row labeled with AGL
altitude a carries exactly the winds interpolated at MSL altitude a + g. -/
theorem agl_msl_equivalence (d : LevelData) (c : Nat) (g : ℚ) :
    (profileAGL d c g).map (fun r => (r.1 + g, r.2.1, r.2.2)) =
      sampleMSL d ((interp_alt c).map (fun a => (a : ℚ) + g)) ∧
    profileMSL d c = sampleMSL d ((interp_alt c).map (fun a => (a : ℚ))) := by
  constructor
  · unfold profileAGL sampleMSL
    rw [List.map_map, List.map_map]
    rfl
  · unfold profileMSL sampleMSL
    rw [List.map_map]
    rfl

/-- Running state of a first-occurrence argmin scan: remaining values,
current index, best index so far and best value so far.  This mirrors
`numpy.argmin`, which returns the first index attaining the minimum. -/
def argminAux : List ℚ → Nat → Nat → ℚ → Nat
  | [], _, bi, _ => bi
  | a :: rest, i, bi, bv =>
      if a < bv then argminAux rest (i + 1) i a else argminAux rest (i + 1) bi bv

/-- First index of the minimum of a list, `numpy.argmin` on a flat array. -/
def argminList : List ℚ → Nat
  | [] => 0
  | a :: rest => argminAux rest 1 0 a

/-- Embedding of `np.abs(arr - x).argmin()`, the per-axis nearest-index
search of the regular-grid branch (`wind_profiler.main` lines 831-834). -/
def nearestIdx (arr : List ℚ) (x : ℚ) : Nat :=
  argminList (arr.map (fun v => |v - x|))

/-- Embedding of the longitude adjustment of `wind_profiler.main`
(lines 814-820): only for the HRRR model, whose grid is declared to use
unsigned 0..360 longitudes, a negative target longitude is shifted by
+360; otherwise the longitude is passed through unchanged. -/
def lon_adjust (m : Model) (lon : ℚ) : ℚ :=
  if m = Model.hrrr ∧ lon < 0 then lon + 360 else lon

/-- Embedding of the regular-grid (rank-1 coordinate arrays) locator of
`wind_profiler.main` (lines 830-834): independent nearest-index searches on
the latitude and the adjusted-longitude axes. -/
def gridLocate1D (latArr lonArr : List ℚ) (m : Model) (lat lon : ℚ) : Nat × Nat :=
  (nearestIdx latArr lat, nearestIdx lonArr (lon_adjust m lon))

/-- Embedding of the curvilinear-grid (rank-2 coordinate arrays) locator of
`wind_profiler.main` (lines 823-829) on the flattened grid:
`total_diff = |lat2d - lat| + |lon2d - lon_adjusted|` and the first flat
index of its minimum; `np.unravel_index` then splits that flat index by the
row length, which is a bijection and does not affect cell identity. -/
def gridLocate2D (latFlat lonFlat : List ℚ) (m : Model) (lat lon : ℚ) : Nat :=
  argminList (List.zipWith
    (fun a b => |a - lat| + |b - lon_adjust m lon|) latFlat lonFlat)

/-- C4: against the model whose grid is declared unsigned 0..360 (HRRR), a
target longitude L with -180 ≤ L < 0 is first normalized to L + 360, so
both the regular-grid and the curvilinear-grid locator resolve L and
L + 360 to the same grid cell. -/
theorem unsigned_longitude_normalization
    (latArr lonArr latFlat lonFlat : List ℚ) (lat L : ℚ)
    (h1 : -180 ≤ L) (h2 : L < 0) :
    lon_adjust Model.hrrr L = lon_adjust Model.hrrr (L + 360) ∧
    gridLocate1D latArr lonArr Model.hrrr lat L =
      gridLocate1D latArr lonArr Model.hrrr lat (L + 360) ∧
    gridLocate2D latFlat lonFlat Model.hrrr lat L =
      gridLocate2D latFlat lonFlat Model.hrrr lat (L + 360) := by
  have hadj : lon_adjust Model.hrrr L = lon_adjust Model.hrrr (L + 360) := by
    unfold lon_adjust
    rw [if_pos ⟨rfl, h2⟩, if_neg]
    intro hcon
    have : (0 : ℚ) ≤ L + 360 := by linarith
    exact absurd hcon.2 (not_lt.mpr this)
  refine ⟨hadj, ?_, ?_⟩
  · unfold gridLocate1D
    rw [hadj]
  · unfold gridLocate2D
    rw [hadj]

/-- C4 witness: target longitude -110 resolves identically to target 250 on
a concrete unsigned-convention grid. -/
theorem unsigned_longitude_normalization_witness :
    (-180 : ℚ) ≤ -110 ∧ (-110 : ℚ) < 0 ∧
    (lon_adjust Model.hrrr (-110) = lon_adjust Model.hrrr (-110 + 360) ∧
     gridLocate1D [30, 31] [249, 250, 251] Model.hrrr 30 (-110) =
       gridLocate1D [30, 31] [249, 250, 251] Model.hrrr 30 (-110 + 360) ∧
     gridLocate2D [30, 30, 31, 31] [249, 251, 249, 251] Model.hrrr 30 (-110) =
       gridLocate2D [30, 30, 31, 31] [249, 251, 249, 251] Model.hrrr 30 (-110 + 360)) :=
  ⟨by norm_num, by norm_num,
   unsigned_longitude_normalization [30, 31] [249, 250, 251]
     [30, 30, 31, 31] [249, 251, 249, 251] 30 (-110) (by norm_num) (by norm_num)⟩

/-- Truncation toward zero, the behavior of Python `int()` applied to a
(possibly negative) real value. -/
def pyInt (q : ℚ) : ℤ :=
  if 0 ≤ q then ⌊q⌋ else -⌊-q⌋

/-- The terrain tile identified by `wind_profiler.get_dted0_filename`:
hemisphere letters and integer tile numbers for latitude and longitude. -/
structure DtedTile where
  latHem : Char
  latTile : Nat
  lonHem : Char
  lonTile : Nat
deriving DecidableEq

/-- Embedding of `wind_profiler.get_dted0_filename` (lines 91-127): tile
numbers are `int(abs(lat))` and `int(abs(lon))`; the longitude hemisphere
letter is east when the longitude is nonnegative or its tile number is 0
(the London special case of the code comment), west otherwise; the latitude
hemisphere letter is north for nonnegative latitude, south otherwise.  The
filesystem existence check at the end of the function is environment, not
naming, and is not modelled. -/
def get_dted0_filename (lat lon : ℚ) : DtedTile :=
  ⟨if 0 ≤ lat then 'n' else 's',
   (⌊|lat|⌋).toNat,
   if 0 ≤ lon ∨ (lon < 0 ∧ (⌊|lon|⌋).toNat = 0) then 'e' else 'w',
   (⌊|lon|⌋).toNat⟩

/-- Embedding of the index computation of
`wind_profiler.get_ground_elevation_dted0` (lines 145-161): the tile corner
is `int(lat), int(lon)` (truncation toward zero), the fractional position
scales the sub-degree offset by the axis length minus one, the base indices
are truncated and then clamped into `[0, n - 2]`. -/
def bilinearIndices (lat lon : ℚ) (nLat nLon : Nat) : ℤ × ℤ :=
  let lat0 := pyInt lat
  let lon0 := pyInt lon
  let latFrac := lat - lat0
  let lonFrac := lon - lon0
  let latIdx := latFrac * ((nLat : ℚ) - 1)
  let lonIdx := lonFrac * ((nLon : ℚ) - 1)
  let i := pyInt latIdx
  let j := pyInt lonIdx
  (min (max i 0) ((nLat : ℤ) - 2), min (max j 0) ((nLon : ℤ) - 2))

/-- C7 counterexample: at latitude -32.5 the code selects tile s32, not the
floor-based s33 the claim states, and at longitude -0.5 it selects the
e000 tile, not w001; likewise the sub-degree corner used by the elevation
lookup is the truncated int(-32.5) = -32, not the floor -33. -/
theorem dted_tile_counterexample :
    get_dted0_filename (-65/2 : ℚ) (-1/2 : ℚ) = ⟨'s', 32, 'e', 0⟩ ∧
    (32 : Nat) ≠ 33 ∧ ('e' ≠ 'w') ∧
    pyInt (-65/2 : ℚ) = -32 ∧ pyInt (-65/2 : ℚ) ≠ ⌊(-65/2 : ℚ)⌋ := by
  have habs1 : |(-65/2 : ℚ)| = 65/2 := by
    rw [abs_of_neg (by norm_num : (-65/2 : ℚ) < 0)]
    norm_num
  have habs2 : |(-1/2 : ℚ)| = 1/2 := by
    rw [abs_of_neg (by norm_num : (-1/2 : ℚ) < 0)]
    norm_num
  have hf1 : ⌊(65/2 : ℚ)⌋ = 32 := by norm_num
  have hf2 : ⌊(1/2 : ℚ)⌋ = 0 := by norm_num
  have hf3 : ⌊(-65/2 : ℚ)⌋ = -33 := by norm_num
  have hpy : pyInt (-65/2 : ℚ) = -32 := by
    unfold pyInt
    rw [if_neg (by norm_num : ¬ (0 : ℚ) ≤ -65/2)]
    norm_num
  refine ⟨?_, by decide, by decide, hpy, ?_⟩
  · unfold get_dted0_filename
    rw [habs1, habs2, hf1, hf2]
    rw [if_neg (by norm_num : ¬ (0 : ℚ) ≤ -65/2), if_pos (Or.inr ⟨by norm_num, rfl⟩)]
    rfl
  · rw [hpy, hf3]
    decide

/-- C7 amended: tile numbers come from truncation toward zero of the
absolute coordinates, not from the floor.  For a negative non-integer
latitude the selected south tile number is -floor(lat) - 1, one less than
the floor-based rule; a longitude strictly between -1 and 0 selects the
east tile e000 rather than w001; and the sub-degree offset of the
elevation lookup is measured from the truncated corner int(lat), which for
such a latitude sits above the point, making the offset negative. -/
theorem dted_tile_truncation (lat lon : ℚ)
    (hlat : lat < 0) (hni : (⌊lat⌋ : ℚ) < lat)
    (hlon1 : -1 < lon) (hlon2 : lon < 0) :
    (get_dted0_filename lat lon).latHem = 's' ∧
    ((get_dted0_filename lat lon).latTile : ℤ) = -⌊lat⌋ - 1 ∧
    (get_dted0_filename lat lon).lonHem = 'e' ∧
    (get_dted0_filename lat lon).lonTile = 0 ∧
    lat - pyInt lat < 0 := by
  have habs : |lat| = -lat := abs_of_neg hlat
  have hceil : ⌈lat⌉ = ⌊lat⌋ + 1 := by
    have h1 : ⌈lat⌉ ≤ ⌊lat⌋ + 1 := Int.ceil_le_floor_add_one lat
    have h2 : ⌊lat⌋ < ⌈lat⌉ := by
      have := Int.le_ceil lat
      exact_mod_cast lt_of_lt_of_le hni this
    omega
  have hfloorneg : ⌊-lat⌋ = -⌊lat⌋ - 1 := by
    rw [Int.floor_neg, hceil]
    ring
  have hlatfloor : ⌊|lat|⌋ = -⌊lat⌋ - 1 := by rw [habs, hfloorneg]
  have hlatnn : 0 ≤ ⌊|lat|⌋ := Int.floor_nonneg.mpr (abs_nonneg lat)
  have hlonfloor : ⌊|lon|⌋ = 0 := by
    rw [abs_of_neg hlon2]
    rw [Int.floor_eq_zero_iff]
    constructor
    · linarith
    · linarith
  refine ⟨?_, ?_, ?_, ?_, ?_⟩
  · unfold get_dted0_filename
    simp only [if_neg (not_le.mpr hlat)]
  · unfold get_dted0_filename
    simp only
    rw [Int.toNat_of_nonneg hlatnn, hlatfloor]
  · unfold get_dted0_filename
    simp only [hlonfloor]
    rw [if_pos]
    right
    exact ⟨hlon2, rfl⟩
  · unfold get_dted0_filename
    simp only [hlonfloor]
    rfl
  · unfold pyInt
    rw [if_neg (not_le.mpr hlat), hfloorneg]
    push_cast
    have : (⌊lat⌋ : ℚ) + 1 > lat := Int.lt_floor_add_one lat
    linarith

/-- C7 amended witness: at latitude -32.5 and longitude -0.5 the selected
tile is s32 / e000 and the sub-degree offset is negative. -/
theorem dted_tile_truncation_witness :
    (-65/2 : ℚ) < 0 ∧ ((⌊(-65/2 : ℚ)⌋ : ℚ) < -65/2) ∧
    (-1 : ℚ) < -1/2 ∧ (-1/2 : ℚ) < 0 ∧
    ((get_dted0_filename (-65/2) (-1/2)).latHem = 's' ∧
     ((get_dted0_filename (-65/2) (-1/2)).latTile : ℤ) = -⌊(-65/2 : ℚ)⌋ - 1 ∧
     (get_dted0_filename (-65/2) (-1/2)).lonHem = 'e' ∧
     (get_dted0_filename (-65/2) (-1/2)).lonTile = 0 ∧
     (-65/2 : ℚ) - pyInt (-65/2 : ℚ) < 0) :=
  ⟨by norm_num, by norm_num, by norm_num, by norm_num,
   dted_tile_truncation (-65/2) (-1/2) (by norm_num) (by norm_num)
     (by norm_num) (by norm_num)⟩

/-- C8: for every target coordinate and every array with at least 2 rows
and 2 columns, the clamped base indices of the bilinear terrain lookup
satisfy 0 ≤ i, i + 1 ≤ nLat - 1, 0 ≤ j and j + 1 ≤ nLon - 1, so all four
corner accesses (i, j), (i+1, j), (i, j+1), (i+1, j+1) are in bounds. -/
theorem bilinear_corners_in_bounds (lat lon : ℚ) (nLat nLon : Nat)
    (h1 : 2 ≤ nLat) (h2 : 2 ≤ nLon) :
    0 ≤ (bilinearIndices lat lon nLat nLon).1 ∧
    (bilinearIndices lat lon nLat nLon).1 + 1 ≤ (nLat : ℤ) - 1 ∧
    0 ≤ (bilinearIndices lat lon nLat nLon).2 ∧
    (bilinearIndices lat lon nLat nLon).2 + 1 ≤ (nLon : ℤ) - 1 := by
  have h1z : (2 : ℤ) ≤ (nLat : ℤ) := by exact_mod_cast h1
  have h2z : (2 : ℤ) ≤ (nLon : ℤ) := by exact_mod_cast h2
  unfold bilinearIndices
  simp only
  set ri := pyInt ((lat - pyInt lat) * ((nLat : ℚ) - 1)) with hri
  set rj := pyInt ((lon - pyInt lon) * ((nLon : ℚ) - 1)) with hrj
  have hia : 0 ≤ min (max ri 0) ((nLat : ℤ) - 2) :=
    le_min (le_max_right ri 0) (by omega)
  have hib : min (max ri 0) ((nLat : ℤ) - 2) ≤ (nLat : ℤ) - 2 :=
    min_le_right _ _
  have hja : 0 ≤ min (max rj 0) ((nLon : ℤ) - 2) :=
    le_min (le_max_right rj 0) (by omega)
  have hjb : min (max rj 0) ((nLon : ℤ) - 2) ≤ (nLon : ℤ) - 2 :=
    min_le_right _ _
  exact ⟨hia, by omega, hja, by omega⟩

/-- C8 witness: at latitude-longitude offset (0.5, 0.9) inside a 3 by 4
tile, the clamped corners are in bounds. -/
theorem bilinear_corners_in_bounds_witness :
    2 ≤ 3 ∧ 2 ≤ 4 ∧
    (0 ≤ (bilinearIndices (1/2) (9/10) 3 4).1 ∧
     (bilinearIndices (1/2) (9/10) 3 4).1 + 1 ≤ (3 : ℤ) - 1 ∧
     0 ≤ (bilinearIndices (1/2) (9/10) 3 4).2 ∧
     (bilinearIndices (1/2) (9/10) 3 4).2 + 1 ≤ (4 : ℤ) - 1) :=
  ⟨by decide, by decide, bilinear_corners_in_bounds (1/2) (9/10) 3 4 (by decide) (by decide)⟩

/-- Embedding of `pressure_to_alt` (`wind_profiler.py` lines 889-894,
`winds_from_grib2.py` lines 169-181, `raw_data_viewer.py` lines 228-230):
h_ft = 44330 * (1 - (p / 1013.25) ^ (1 / 5.255)) * 3.28084, over the
reals. -/
noncomputable def pressure_to_alt (p : ℝ) : ℝ :=
  44330 * (1 - (p / 1013.25) ^ ((1 : ℝ) / 5.255)) * 3.28084

/-- C6: pressure_to_alt is strictly decreasing on (0, 1013.25] — a higher
pressure in that interval yields a strictly lower altitude — and at the
standard sea-level pressure it is exactly 0. -/
theorem pressure_to_alt_strict_anti (p q : ℝ)
    (hp : 0 < p) (hpq : p < q) (hq : q ≤ 1013.25) :
    pressure_to_alt q < pressure_to_alt p ∧ pressure_to_alt 1013.25 = 0 := by
  constructor
  · have hd : p / 1013.25 < q / 1013.25 := by gcongr
    have hpn : (0 : ℝ) ≤ p / 1013.25 := by positivity
    have hr : (p / 1013.25) ^ ((1 : ℝ) / 5.255) < (q / 1013.25) ^ ((1 : ℝ) / 5.255) :=
      Real.rpow_lt_rpow hpn hd (by norm_num)
    unfold pressure_to_alt
    nlinarith [hr]
  · unfold pressure_to_alt
    rw [div_self (by norm_num : (1013.25 : ℝ) ≠ 0), Real.one_rpow]
    ring

/-- C6 witness: 500 < 1000 ≤ 1013.25 and the altitude at 1000 hPa is
strictly below the altitude at 500 hPa; the altitude at 1013.25 hPa is 0. -/
theorem pressure_to_alt_strict_anti_witness :
    (0 : ℝ) < 500 ∧ (500 : ℝ) < 1000 ∧ (1000 : ℝ) ≤ 1013.25 ∧
    (pressure_to_alt 1000 < pressure_to_alt 500 ∧ pressure_to_alt 1013.25 = 0) :=
  ⟨by norm_num, by norm_num, by norm_num,
   pressure_to_alt_strict_anti 500 1000 (by norm_num) (by norm_num) (by norm_num)⟩

/-- The two-argument arctangent `np.arctan2(y, x)`, the angle of the point
(x, y), valued in (-pi, pi]. -/
noncomputable def atan2 (y x : ℝ) : ℝ := Complex.arg ⟨x, y⟩

/-- The Python modulo operator on real floats: `x % m = x - m * floor(x / m)`,
whose result has the sign of m. -/
noncomputable def pythonMod (x m : ℝ) : ℝ := x - m * ⌊x / m⌋

/-- Embedding of the per-level wind direction of `wind_profiler.main` line
886 (and `raw_data_viewer.py` line 308, `winds_from_grib2.py` line 166):
`(270 - np.rad2deg(np.arctan2(v, u))) % 360`. -/
noncomputable def windDir (u v : ℝ) : ℝ :=
  pythonMod (270 - atan2 v u * (180 / Real.pi)) 360

/-- The Python float modulo by 360 always lands in [0, 360). -/
theorem pythonMod_360_bounds (x : ℝ) :
    0 ≤ pythonMod x 360 ∧ pythonMod x 360 < 360 := by
  unfold pythonMod
  have hfr : x - 360 * ⌊x / 360⌋ = 360 * Int.fract (x / 360) := by
    rw [Int.fract]
    ring
  rw [hfr]
  constructor
  · have := Int.fract_nonneg (x / 360)
    nlinarith
  · have := Int.fract_lt_one (x / 360)
    nlinarith

/-- A due-west wind (u = 10, v = 0) gets per-level direction exactly 270. -/
theorem windDir_westerly : windDir 10 0 = 270 := by
  have harg : atan2 0 10 = 0 := by
    unfold atan2
    have h : (⟨10, 0⟩ : ℂ) = ((10 : ℝ) : ℂ) := by
      apply Complex.ext <;> simp
    rw [h]
    exact Complex.arg_ofReal_of_nonneg (by norm_num)
  unfold windDir
  rw [harg]
  unfold pythonMod
  norm_num

/-- A due-north wind (u = 0, v = -10) gets per-level direction exactly 0:
the raw value 360 is wrapped to 0 by the modulo. -/
theorem windDir_northerly : windDir 0 (-10) = 0 := by
  have harg : atan2 (-10) 0 = -(Real.pi / 2) := by
    unfold atan2
    exact Complex.arg_eq_neg_pi_div_two_iff.mpr ⟨rfl, by norm_num⟩
  unfold windDir
  rw [harg]
  have h360 : (270 : ℝ) - -(Real.pi / 2) * (180 / Real.pi) = 360 := by
    field_simp
    ring
  rw [h360]
  unfold pythonMod
  norm_num

/-- C10: every per-level wind direction lies in [0, 360) since it is taken
modulo 360, and the concrete directions 270 and 0 arise from due-west and
due-north winds; yet with those two values at level altitudes 0 and 1000
ft, the profile rows at 2000 and 3000 ft — altitudes outside the span of
the level altitudes — carry linearly extrapolated directions -270 and
-540, which are negative and hence outside [0, 360). -/
theorem extrapolated_direction_out_of_range :
    (∀ u v : ℝ, 0 ≤ windDir u v ∧ windDir u v < 360) ∧
    windDir 10 0 = 270 ∧ windDir 0 (-10) = 0 ∧
    profileMSL ⟨[0, 1000], [5, 5], [270, 0]⟩ 3000 =
      [(0, 5, 270), (1000, 5, 0), (2000, 5, -270), (3000, 5, -540)] ∧
    ((-540 : ℚ) < 0 ∧ (-270 : ℚ) < 0) := by
  refine ⟨fun u v => pythonMod_360_bounds _, windDir_westerly, windDir_northerly, ?_, by norm_num⟩
  norm_num [profileMSL, interp_alt, speed_i, dir_i, interpPts, lerp, List.range_succ]

/-- C5 amended witness: hour 6 is in the raw_data_viewer GFS table and,
by the subset conjunct, also in the wind_profiler GFS table. -/
theorem forecast_hour_tables_witness :
    6 ∈ get_available_forecast_hours_rdv Model.gfs ∧
    6 ∈ get_available_forecast_hours Model.gfs :=
  ⟨by decide, forecast_hour_tables.2.2.2.2 6 (by decide)⟩
